import Mathlib

/-!
# Two-factor authentication core: shallow embedding

This file embeds the 2FA subsystem of the repository (the
`TwoFactorService` in `authentication/services.py`, the
`TwoFactorBackupCode` model in `authentication/models.py`, and the 2FA
views in `authentication/views.py`) as pure Lean functions over an
explicit store, and proves the specification claims about it.

Modelling decisions:
* The TOTP engine (`django_otp`'s `TOTPDevice.verify_token`) is an
  external library; it is passed in as an oracle `tv : Nat → String → Bool`
  applied to the device key and the submitted token, since every claim
  treats the TOTP check as an opaque success/failure.
* Randomness (`secrets.token_hex`, device key generation) is passed in
  explicitly (`gen : Nat → String`, `freshKey : Nat`).
* `timezone.now()` is an explicit `now : Nat` parameter.
* Python's `str.upper()` is modelled character-by-character with
  `Char.toUpper`, matching its behaviour on the ASCII hex codes the
  service generates.
* Django rows become list entries; `objects.get(...)` becomes `List.find?`
  (the relevant lookups are unique by the `code` column's uniqueness
  constraint), `objects.filter(...).delete()` becomes `List.filter`, and
  `instance.save()` becomes an in-place first-match update.
-/

namespace TwoFactor

/-- Python `str.upper()` on a string (per-character uppercase). -/
def upper (s : String) : String :=
  String.mk (s.data.map Char.toUpper)

/-- A `django_otp` `TOTPDevice` row: owner, device name, confirmation
flag, and the TOTP secret key (opaque, modelled as a number). -/
structure TOTPDevice where
  userId : Nat
  devName : String
  confirmed : Bool
  key : Nat
  deriving Repr, DecidableEq

/-- A `TwoFactorBackupCode` row (`authentication/models.py`): owner,
code string, `is_used` flag, and nullable `used_at` timestamp. -/
structure BackupCode where
  userId : Nat
  code : String
  is_used : Bool
  used_at : Option Nat
  deriving Repr, DecidableEq

/-- The persistent state the 2FA service touches: the `TOTPDevice`
table, the `TwoFactorBackupCode` table, and each user's
`is_2fa_enabled` column (an association list over user ids). -/
structure Store where
  devices : List TOTPDevice
  codes : List BackupCode
  flags : List (Nat × Bool)
  deriving Repr, DecidableEq

/-- Read a user's `is_2fa_enabled` flag (model default `False`). -/
def getFlag (l : List (Nat × Bool)) (uid : Nat) : Bool :=
  (l.find? (fun p => p.1 == uid)).elim false (fun p => p.2)

/-- Write a user's `is_2fa_enabled` flag (`user.save()`). -/
def setFlag : List (Nat × Bool) → Nat → Bool → List (Nat × Bool)
  | [], uid, v => [(uid, v)]
  | p :: ps, uid, v =>
    if p.1 == uid then (uid, v) :: ps else p :: setFlag ps uid v

/-- `TOTPDevice.objects.get(user=user, name='default')` in
`verify_2fa_token`. -/
def findDevice (s : Store) (uid : Nat) : Option TOTPDevice :=
  s.devices.find? (fun d => d.userId == uid && d.devName == "default")

/-- The lookup half of `get_or_create(user=user, name='default',
confirmed=False)` in `enable_2fa`. -/
def findPendingDevice (s : Store) (uid : Nat) : Option TOTPDevice :=
  s.devices.find?
    (fun d => d.userId == uid && d.devName == "default" && d.confirmed == false)

/-- The read half of `_verify_backup_code`:
`TwoFactorBackupCode.objects.get(user=user, code=code.upper(),
is_used=False)`, `None` when the lookup raises `DoesNotExist`. -/
def consumeRead (s : Store) (uid : Nat) (c : String) : Option BackupCode :=
  s.codes.find?
    (fun b => b.userId == uid && b.code == upper c && b.is_used == false)

/-- The write half of `_verify_backup_code`: `mark_as_used` saves the
fetched row (identified by its unique `code` column) with
`is_used = True` and `used_at = timezone.now()`, unconditionally. -/
def writeUsed : List BackupCode → Nat → String → Nat → List BackupCode
  | [], _, _, _ => []
  | b :: bs, uid, c, now =>
    if b.userId == uid && b.code == c then
      { b with is_used := true, used_at := some now } :: bs
    else
      b :: writeUsed bs uid c now

/-- `mark_as_used` as a store update. -/
def consumeWrite (s : Store) (uid : Nat) (c : String) (now : Nat) : Store :=
  { s with codes := writeUsed s.codes uid c now }

/-- `TwoFactorService._verify_backup_code(user, code)`: fetch the
matching unused row; on a hit mark it used and return `True`, on
`DoesNotExist` return `False` with no mutation. -/
def verify_backup_code (s : Store) (uid : Nat) (c : String) (now : Nat) :
    Bool × Store :=
  match consumeRead s uid c with
  | some b => (true, consumeWrite s uid b.code now)
  | none => (false, s)

/-- `device.confirmed = True; device.save()`: set the confirmation flag
on the fetched `(user, 'default')` device row. -/
def confirmDevice : List TOTPDevice → Nat → List TOTPDevice
  | [], _ => []
  | d :: ds, uid =>
    if d.userId == uid && d.devName == "default" then
      { d with confirmed := true } :: ds
    else
      d :: confirmDevice ds uid

/-- `TwoFactorService.verify_2fa_token(user, token)`: fetch the user's
default device (missing device ⇒ `False`); try the TOTP oracle; on TOTP
success confirm the device and set the user flag when it was
unconfirmed; on TOTP failure fall back to the backup-code path. -/
def verify_2fa_token (tv : Nat → String → Bool) (s : Store) (uid : Nat)
    (token : String) (now : Nat) : Bool × Store :=
  match findDevice s uid with
  | none => (false, s)
  | some d =>
    if tv d.key token then
      if d.confirmed then (true, s)
      else
        (true, { s with
                  devices := confirmDevice s.devices uid
                  flags := setFlag s.flags uid true })
    else verify_backup_code s uid token now

/-- `TwoFactorService.generate_backup_codes(user, count)`: delete the
user's existing codes, then create `count` fresh rows
(`secrets.token_hex(5).upper()` modelled by the oracle `gen` followed by
`upper`), returning the plaintext list.  The Python `count` is an
arbitrary integer; `range(count)` is empty for `count ≤ 0`. -/
def generate_backup_codes (s : Store) (uid : Nat) (count : Int)
    (gen : Nat → String) : List String × Store :=
  let kept := s.codes.filter (fun b => !(b.userId == uid))
  let fresh := (List.range count.toNat).map (fun i => upper (gen i))
  (fresh,
   { s with codes := kept ++ fresh.map (fun c => ⟨uid, c, false, none⟩) })

/-- `TwoFactorService.enable_2fa(user)`: `get_or_create` the unconfirmed
default device (reusing the pending secret when the row exists,
otherwise creating one with a fresh key), then regenerate the
backup-code batch; returns the secret key and the plaintext codes (the
QR rendering is presentation only and carries the same `config_url`
data as the key). -/
def enable_2fa (s : Store) (uid : Nat) (freshKey : Nat)
    (gen : Nat → String) : (Nat × List String) × Store :=
  match findPendingDevice s uid with
  | some d =>
    let r := generate_backup_codes s uid 10 gen
    ((d.key, r.1), r.2)
  | none =>
    let s1 : Store := { s with devices := s.devices ++ [⟨uid, "default", false, freshKey⟩] }
    let r := generate_backup_codes s1 uid 10 gen
    ((freshKey, r.1), r.2)

/-- `TwoFactorService.disable_2fa(user)`: delete all of the user's
devices and backup codes and clear `is_2fa_enabled`, unconditionally. -/
def disable_2fa (s : Store) (uid : Nat) : Store :=
  { devices := s.devices.filter (fun d => !(d.userId == uid))
    codes := s.codes.filter (fun b => !(b.userId == uid))
    flags := setFlag s.flags uid false }

/-- HTTP-level outcome of a 2FA view. -/
inductive ViewResult where
  | ok
  | badRequest
  deriving Repr, DecidableEq

/-- `Verify2FAView.post`: run `verify_2fa_token`; on success send the
"2FA enabled" email (the third component counts emails sent by this
call) and return 200, otherwise 400 with no email. -/
def verify_view (tv : Nat → String → Bool) (s : Store) (uid : Nat)
    (token : String) (now : Nat) : ViewResult × Store × Nat :=
  let r := verify_2fa_token tv s uid token now
  if r.1 then (ViewResult.ok, r.2, 1) else (ViewResult.badRequest, r.2, 0)

/-- `Disable2FAView.post`: reject with 400 when `is_2fa_enabled` is
false, else run `disable_2fa` and return 200. -/
def disable_view (s : Store) (uid : Nat) : ViewResult × Store :=
  if getFlag s.flags uid then (ViewResult.ok, disable_2fa s uid)
  else (ViewResult.badRequest, s)

/-- Interleaved execution of two concurrent `_verify_backup_code` calls
for the same user and code under the schedule read₁, read₂, write₁,
write₂ (each read and each write is one database statement; the service
opens no transaction around the pair).  Each caller returns `True` iff
its read found an unused row. -/
def raceSchedule (s : Store) (uid : Nat) (c : String) (t1 t2 : Nat) :
    Bool × Bool × Store :=
  let r1 := consumeRead s uid c
  let r2 := consumeRead s uid c
  let s1 := match r1 with
    | some b => consumeWrite s uid b.code t1
    | none => s
  let s2 := match r2 with
    | some b => consumeWrite s1 uid b.code t2
    | none => s1
  (r1.isSome, r2.isSome, s2)

/-- One controller operation, for stating invariants that hold after
every operation of the service. -/
inductive Op where
  | enroll (uid freshKey : Nat) (gen : Nat → String)
  | verify (tv : Nat → String → Bool) (uid : Nat) (token : String) (now : Nat)
  | regen (uid : Nat) (count : Int) (gen : Nat → String)
  | disable (uid : Nat)

/-- Effect of one operation on the store. -/
def stepOp (s : Store) : Op → Store
  | Op.enroll uid k g => (enable_2fa s uid k g).2
  | Op.verify tv uid tok now => (verify_2fa_token tv s uid tok now).2
  | Op.regen uid n g => (generate_backup_codes s uid n g).2
  | Op.disable uid => disable_2fa s uid

/-- The backup-code row invariant: `used_at` is set iff `is_used`. -/
def codesInvB (s : Store) : Bool :=
  s.codes.all (fun b => b.is_used == b.used_at.isSome)

/-! ## Concrete sample stores used by counterexamples and witnesses -/

/-- User 1 holds a PENDING (unconfirmed) default device with key 7 and
one unused backup code `A1`; the `is_2fa_enabled` flag is unset. -/
def pendStore : Store := ⟨[⟨1, "default", false, 7⟩], [⟨1, "A1", false, none⟩], []⟩

/-- User 1 is fully ENABLED: confirmed default device, flag set. -/
def enabledStore : Store := ⟨[⟨1, "default", true, 7⟩], [], [(1, true)]⟩

/-- A store holding a single unused backup code `B2` for user 1. -/
def oneCodeStore : Store := ⟨[], [⟨1, "B2", false, none⟩], []⟩

/-! ## Helper lemmas -/

/-- Writing a user's flag then reading it back yields the written value. -/
theorem getFlag_setFlag (l : List (Nat × Bool)) (uid : Nat) (v : Bool) :
    getFlag (setFlag l uid v) uid = v := by
  induction l with
  | nil =>
    simp [setFlag, getFlag, List.find?]
  | cons p ps ih =>
    rw [setFlag]
    by_cases h : (p.1 == uid) = true
    · rw [if_pos h]
      simp [getFlag, List.find?]
    · rw [if_neg h]
      simp only [getFlag] at ih ⊢
      rw [@List.find?_cons_of_neg _ (fun q => q.1 == uid) p (setFlag ps uid v) h]
      exact ih

/-- A search keyed to `uid` finds nothing in a list from which all of
`uid`'s rows were deleted. -/
theorem find?_filter_ne_none {α : Type} (f : α → Nat) (l : List α) (uid : Nat)
    (p : α → Bool) (hp : ∀ x, p x = true → (f x == uid) = true) :
    (l.filter (fun x => !(f x == uid))).find? p = none := by
  apply List.find?_eq_none.mpr
  intro x hx hpx
  have h1 := (List.mem_filter.mp hx).2
  rw [hp x hpx] at h1
  simp at h1

/-- `mark_as_used` does not change which code strings are stored. -/
theorem writeUsed_map_code (l : List BackupCode) (uid : Nat) (c : String) (now : Nat) :
    (writeUsed l uid c now).map (fun b => b.code) = l.map (fun b => b.code) := by
  induction l with
  | nil => rfl
  | cons b bs ih =>
    rw [writeUsed]
    by_cases h : (b.userId == uid && b.code == c) = true
    · rw [if_pos h]
      simp
    · rw [if_neg h]
      simp only [List.map_cons, ih]

/-- After `mark_as_used` runs on the row keyed `(uid, c)`, no unused row
with that key remains, provided stored code strings are distinct (the
`code` column carries a uniqueness constraint). -/
theorem writeUsed_kills (uid : Nat) (c : String) (now : Nat) :
    ∀ l : List BackupCode, (l.map (fun b => b.code)).Nodup →
      (writeUsed l uid c now).find?
        (fun b => b.userId == uid && b.code == c && b.is_used == false) = none := by
  intro l
  induction l with
  | nil => intro _; rfl
  | cons b bs ih =>
    intro hnd
    rw [List.map_cons, List.nodup_cons] at hnd
    obtain ⟨hbnot, hnd'⟩ := hnd
    rw [writeUsed]
    by_cases hb : (b.userId == uid && b.code == c) = true
    · rw [if_pos hb]
      rw [List.find?_cons_of_neg]
      · apply List.find?_eq_none.mpr
        intro x hx hpx
        simp only [Bool.and_eq_true, beq_iff_eq] at hpx hb
        exact hbnot (List.mem_map.mpr ⟨x, hx, hpx.1.2.trans hb.2.symm⟩)
      · simp
    · rw [if_neg hb]
      rw [List.find?_cons_of_neg]
      · exact ih hnd'
      · intro hpx
        simp only [Bool.and_eq_true] at hpx hb
        exact hb hpx.1

/-- A row-level property survives deleting rows. -/
theorem all_filter_of_all {α : Type} (p q : α → Bool) (l : List α)
    (h : l.all p = true) : (l.filter q).all p = true := by
  rw [List.all_eq_true] at h ⊢
  intro x hx
  exact h x (List.mem_filter.mp hx).1

/-- `mark_as_used` preserves the `used_at`-iff-`is_used` row invariant
(it sets both fields together). -/
theorem all_inv_writeUsed (l : List BackupCode) (uid : Nat) (c : String) (now : Nat)
    (h : l.all (fun b => b.is_used == b.used_at.isSome) = true) :
    (writeUsed l uid c now).all (fun b => b.is_used == b.used_at.isSome) = true := by
  induction l with
  | nil => rfl
  | cons b bs ih =>
    rw [List.all_cons, Bool.and_eq_true] at h
    rw [writeUsed]
    by_cases hb : (b.userId == uid && b.code == c) = true
    · rw [if_pos hb, List.all_cons]
      simp [h.2]
    · rw [if_neg hb, List.all_cons]
      simp [h.1, ih h.2]

/-- Unfolding equation for `verify_2fa_token` when the device row is
missing. -/
theorem verify_2fa_token_device_missing (tv : Nat → String → Bool) (s : Store)
    (uid : Nat) (token : String) (now : Nat)
    (hd : findDevice s uid = none) :
    verify_2fa_token tv s uid token now = (false, s) := by
  unfold verify_2fa_token
  rw [hd]

/-- Unfolding equation for `enable_2fa` when a pending device row
exists: the pending secret is reused. -/
theorem enable_2fa_pending (s : Store) (uid k : Nat) (g : Nat → String)
    (d : TOTPDevice) (hd : findPendingDevice s uid = some d) :
    enable_2fa s uid k g =
      ((d.key, (generate_backup_codes s uid 10 g).1),
        (generate_backup_codes s uid 10 g).2) := by
  unfold enable_2fa
  rw [hd]

/-- Unfolding equation for `enable_2fa` when no pending device row
exists: a device with the fresh key is created. -/
theorem enable_2fa_fresh (s : Store) (uid k : Nat) (g : Nat → String)
    (hd : findPendingDevice s uid = none) :
    enable_2fa s uid k g =
      ((k, (generate_backup_codes
              { s with devices := s.devices ++ [⟨uid, "default", false, k⟩] }
              uid 10 g).1),
        (generate_backup_codes
          { s with devices := s.devices ++ [⟨uid, "default", false, k⟩] }
          uid 10 g).2) := by
  unfold enable_2fa
  rw [hd]

/-- After any `enable_2fa` call there is a pending device row whose key
is the secret the call returned. -/
theorem findPendingDevice_enable (s : Store) (uid k : Nat) (g : Nat → String) :
    ∃ d : TOTPDevice, findPendingDevice (enable_2fa s uid k g).2 uid = some d ∧
      d.key = (enable_2fa s uid k g).1.1 := by
  cases hd : findPendingDevice s uid with
  | some d =>
    refine ⟨d, ?_, ?_⟩
    · rw [enable_2fa_pending s uid k g d hd]
      exact hd
    · rw [enable_2fa_pending s uid k g d hd]
  | none =>
    refine ⟨⟨uid, "default", false, k⟩, ?_, ?_⟩
    · rw [enable_2fa_fresh s uid k g hd]
      have hd' : s.devices.find?
          (fun d : TOTPDevice => d.userId == uid && d.devName == "default" &&
            d.confirmed == false) = none := hd
      show (s.devices ++ [(⟨uid, "default", false, k⟩ : TOTPDevice)]).find?
          (fun d : TOTPDevice => d.userId == uid && d.devName == "default" &&
            d.confirmed == false) = some ⟨uid, "default", false, k⟩
      rw [List.find?_append, hd']
      simp [List.find?]
    · rw [enable_2fa_fresh s uid k g hd]

/-- After regenerating the batch, a code absent from the new batch (and
written in its stored uppercase form) no longer matches any row of the
user. -/
theorem consumeRead_generate_none (s : Store) (uid : Nat) (n : Int)
    (g : Nat → String) (c : String) (hup : upper c = c)
    (hfresh : ∀ i, i < n.toNat → upper (g i) ≠ c) :
    consumeRead (generate_backup_codes s uid n g).2 uid c = none := by
  apply List.find?_eq_none.mpr
  intro x hx hpx
  simp only [Bool.and_eq_true, beq_iff_eq] at hpx
  have hx' : x ∈ s.codes.filter (fun b => !(b.userId == uid)) ++
      ((List.range n.toNat).map (fun i => upper (g i))).map
        (fun cc => ({ userId := uid, code := cc, is_used := false,
                      used_at := none } : BackupCode)) := hx
  rcases List.mem_append.mp hx' with h1 | h2
  · have hm := (List.mem_filter.mp h1).2
    rw [hpx.1.1] at hm
    simp at hm
  · rcases List.mem_map.mp h2 with ⟨cc, hcc, rfl⟩
    rcases List.mem_map.mp hcc with ⟨i, hi, rfl⟩
    have hceq := hpx.1.2
    rw [hup] at hceq
    exact hfresh i (List.mem_range.mp hi) hceq

/-- The backup-code row invariant survives a regeneration. -/
theorem codesInvB_generate (s : Store) (uid : Nat) (n : Int)
    (g : Nat → String) (h : codesInvB s = true) :
    codesInvB (generate_backup_codes s uid n g).2 = true := by
  show (s.codes.filter (fun b => !(b.userId == uid)) ++
      ((List.range n.toNat).map (fun i => upper (g i))).map
        (fun cc => ({ userId := uid, code := cc, is_used := false,
                      used_at := none } : BackupCode))).all
      (fun b => b.is_used == b.used_at.isSome) = true
  rw [List.all_append, Bool.and_eq_true]
  refine ⟨all_filter_of_all _ _ _ h, ?_⟩
  rw [List.all_eq_true]
  intro x hx
  rcases List.mem_map.mp hx with ⟨cc, _, rfl⟩
  rfl

/-- The backup-code row invariant survives an enrollment. -/
theorem codesInvB_enable (s : Store) (uid k : Nat) (g : Nat → String)
    (h : codesInvB s = true) :
    codesInvB (enable_2fa s uid k g).2 = true := by
  cases hd : findPendingDevice s uid with
  | some d =>
    rw [enable_2fa_pending s uid k g d hd]
    exact codesInvB_generate s uid 10 g h
  | none =>
    rw [enable_2fa_fresh s uid k g hd]
    exact codesInvB_generate _ uid 10 g h

/-- Unfolding equation for `verify_2fa_token` when the device row is
found. -/
theorem verify_2fa_token_device_found (tv : Nat → String → Bool) (s : Store)
    (uid : Nat) (token : String) (now : Nat) (d : TOTPDevice)
    (hd : findDevice s uid = some d) :
    verify_2fa_token tv s uid token now =
      if tv d.key token then
        if d.confirmed then (true, s)
        else (true, { s with devices := confirmDevice s.devices uid,
                             flags := setFlag s.flags uid true })
      else verify_backup_code s uid token now := by
  unfold verify_2fa_token
  rw [hd]

/-- The backup-code row invariant survives a verification. -/
theorem codesInvB_verify (tv : Nat → String → Bool) (s : Store) (uid : Nat)
    (token : String) (now : Nat) (h : codesInvB s = true) :
    codesInvB (verify_2fa_token tv s uid token now).2 = true := by
  cases hf : findDevice s uid with
  | none =>
    rw [verify_2fa_token_device_missing tv s uid token now hf]
    exact h
  | some d =>
    rw [verify_2fa_token_device_found tv s uid token now d hf]
    cases ht : tv d.key token with
    | true =>
      rw [if_pos rfl]
      cases hc : d.confirmed with
      | true =>
        rw [if_pos rfl]
        exact h
      | false =>
        rw [if_neg (by decide)]
        exact h
    | false =>
      rw [if_neg (by decide)]
      unfold verify_backup_code
      cases hr : consumeRead s uid token with
      | none => exact h
      | some b => exact all_inv_writeUsed s.codes uid b.code now h

/-! ## Claims -/

/-- C10: when the user has no TOTP credential row, `verify_2fa_token`
returns `False` for every submitted code and leaves the store unchanged
— the `DoesNotExist` case is absorbed into an ordinary boolean failure
rather than escaping as an error. -/
theorem c10_missing_device_verify_false (tv : Nat → String → Bool) (s : Store)
    (uid : Nat) (token : String) (now : Nat)
    (h : findDevice s uid = none) :
    verify_2fa_token tv s uid token now = (false, s) := by
  unfold verify_2fa_token
  rw [h]

/-- Witness for C10 at a concrete store with no credential row. -/
theorem c10_witness :
    findDevice ⟨[], [], []⟩ 1 = none ∧
      verify_2fa_token (fun _ _ => true) ⟨[], [], []⟩ 1 "123456" 0 =
        (false, ⟨[], [], []⟩) :=
  ⟨by decide, c10_missing_device_verify_false _ _ _ _ _ (by decide)⟩

/-- C7: after `disable_2fa` the user has no device row, no backup
codes, a cleared `is_2fa_enabled` flag, and every subsequent
`verify_2fa_token` call fails with no state change. -/
theorem c7_disable_then_verify_fails (s : Store) (uid : Nat)
    (tv : Nat → String → Bool) (token : String) (now : Nat) :
    findDevice (disable_2fa s uid) uid = none ∧
    (disable_2fa s uid).codes.all (fun b => !(b.userId == uid)) = true ∧
    getFlag (disable_2fa s uid).flags uid = false ∧
    verify_2fa_token tv (disable_2fa s uid) uid token now =
      (false, disable_2fa s uid) := by
  have hdev : findDevice (disable_2fa s uid) uid = none := by
    unfold findDevice disable_2fa
    exact find?_filter_ne_none (fun d : TOTPDevice => d.userId) s.devices uid _
      (fun x hx => by simp only [Bool.and_eq_true] at hx; exact hx.1)
  refine ⟨hdev, ?_, ?_, ?_⟩
  · rw [List.all_eq_true]
    intro x hx
    exact (List.mem_filter.mp hx).2
  · exact getFlag_setFlag s.flags uid false
  · unfold verify_2fa_token
    rw [hdev]

/-- C5 counterexample: a user in the PENDING state (unconfirmed device
present, `is_2fa_enabled` false) is rejected by the disable endpoint
with the not-enabled error, contradicting the claim that PENDING users
can disable. -/
theorem c5_counterexample :
    findPendingDevice pendStore 1 = some ⟨1, "default", false, 7⟩ ∧
    getFlag pendStore.flags 1 = false ∧
    disable_view pendStore 1 = (ViewResult.badRequest, pendStore) := by decide

/-- C5 amended: the disable endpoint succeeds exactly when the user's
`is_2fa_enabled` flag is set (the ENABLED state); both DISABLED and
PENDING users receive the not-enabled rejection. -/
theorem c5_disable_iff_enabled_flag (s : Store) (uid : Nat) :
    ((disable_view s uid).1 = ViewResult.ok ↔ getFlag s.flags uid = true) ∧
    ((disable_view s uid).1 = ViewResult.badRequest ↔ getFlag s.flags uid = false) := by
  unfold disable_view
  cases h : getFlag s.flags uid <;> simp [h]

/-- C1 counterexample: with a PENDING credential, a TOTP failure
followed by a backup-code match returns success, yet the device row
stays unconfirmed and `is_2fa_enabled` stays false — the credential is
not transitioned to ENABLED as the claim states. -/
theorem c1_counterexample :
    verify_2fa_token (fun _ _ => false) pendStore 1 "a1" 5 =
      (true, ⟨[⟨1, "default", false, 7⟩], [⟨1, "A1", true, some 5⟩], []⟩) ∧
    getFlag ((verify_2fa_token (fun _ _ => false) pendStore 1 "a1" 5).2).flags 1 =
      false := by decide

/-- C1 amended: when the TOTP check fails and the submitted code
matches an unused backup code, `verify_2fa_token` returns success but
leaves the device table and the user flags untouched — unlike the TOTP
path, a backup-code match never confirms a PENDING credential. -/
theorem c1_backup_success_leaves_pending (tv : Nat → String → Bool)
    (s : Store) (uid : Nat) (token : String) (now : Nat) (d : TOTPDevice)
    (hd : findDevice s uid = some d) (htotp : tv d.key token = false)
    (hcode : (consumeRead s uid token).isSome = true) :
    (verify_2fa_token tv s uid token now).1 = true ∧
    (verify_2fa_token tv s uid token now).2.devices = s.devices ∧
    (verify_2fa_token tv s uid token now).2.flags = s.flags := by
  rw [verify_2fa_token_device_found tv s uid token now d hd, htotp]
  simp only [Bool.false_eq_true, if_false]
  unfold verify_backup_code
  cases hr : consumeRead s uid token with
  | none => rw [hr] at hcode; simp at hcode
  | some b => exact ⟨rfl, rfl, rfl⟩

/-- C2: backup-code consumption is a read (`objects.get`) followed by a
separate unconditional write (`mark_as_used`'s `save`), not one atomic
conditional update: run sequentially, the second consume of the same
code fails, but under the interleaved schedule read₁, read₂, write₁,
write₂ both concurrent callers return success, violating the
exactly-one-winner requirement. -/
theorem c2_race_both_callers_succeed :
    (verify_backup_code oneCodeStore 1 "b2" 3).1 = true ∧
    (verify_backup_code (verify_backup_code oneCodeStore 1 "b2" 3).2 1 "b2" 4).1 =
      false ∧
    (raceSchedule oneCodeStore 1 "b2" 3 4).1 = true ∧
    (raceSchedule oneCodeStore 1 "b2" 3 4).2.1 = true := by decide

/-- C3 counterexample: a generation request with `count = 0` is not
rejected — there is no `InvalidCount` error in the interface at all —
and it still deletes the user's existing batch: the pre-existing code
`B2` is gone from the resulting store. -/
theorem c3_counterexample :
    generate_backup_codes oneCodeStore 1 0 (fun _ => "") =
      ([], ⟨[], [], []⟩) := by decide

/-- C3 amended: `generate_backup_codes` performs no validation of
`count` and has no `InvalidCount` error: for every count (including 0,
negative, or values above 100) it unconditionally deletes the user's
prior backup codes and creates exactly `max count 0` fresh ones; every
backup-code row the user owns afterwards comes from the fresh batch. -/
theorem c3_generate_unvalidated_count (s : Store) (uid : Nat) (count : Int)
    (gen : Nat → String) (b : BackupCode)
    (hb : b ∈ (generate_backup_codes s uid count gen).2.codes)
    (hbid : b.userId = uid) :
    (generate_backup_codes s uid count gen).1.length = count.toNat ∧
    b.code ∈ (generate_backup_codes s uid count gen).1 := by
  constructor
  · simp [generate_backup_codes]
  · have hb' : b ∈ s.codes.filter (fun x => !(x.userId == uid)) ++
        ((List.range count.toNat).map (fun i => upper (gen i))).map
          (fun c => ({ userId := uid, code := c, is_used := false,
                       used_at := none } : BackupCode)) := hb
    rcases List.mem_append.mp hb' with h1 | h2
    · have hmem := (List.mem_filter.mp h1).2
      rw [hbid] at hmem
      simp at hmem
    · rcases List.mem_map.mp h2 with ⟨c, hc, rfl⟩
      exact hc

/-- Witness for C3's amended theorem: two codes requested, two created,
and a surviving row of the user comes from the new batch. -/
theorem c3_witness :
    (⟨1, "D", false, none⟩ : BackupCode) ∈
        (generate_backup_codes oneCodeStore 1 2 (fun _ => "d")).2.codes ∧
    (⟨1, "D", false, none⟩ : BackupCode).userId = 1 ∧
    ((generate_backup_codes oneCodeStore 1 2 (fun _ => "d")).1.length =
        (2 : Int).toNat ∧
      (⟨1, "D", false, none⟩ : BackupCode).code ∈
        (generate_backup_codes oneCodeStore 1 2 (fun _ => "d")).1) :=
  ⟨by decide, rfl,
    c3_generate_unvalidated_count oneCodeStore 1 2 (fun _ => "d")
      ⟨1, "D", false, none⟩ (by decide) rfl⟩

/-- C4 counterexample: with an already-confirmed (ENABLED) credential,
a later successful verification still triggers the 2FA-enabled email
(the count of emails sent by the call is 1), contradicting the claim
that the notification fires only on the PENDING→ENABLED transition. -/
theorem c4_counterexample :
    enabledStore.devices = [⟨1, "default", true, 7⟩] ∧
    verify_view (fun _ _ => true) enabledStore 1 "000000" 9 =
      (ViewResult.ok, enabledStore, 1) := by decide

/-- C4 amended: `Verify2FAView.post` sends the 2FA-enabled email on
every successful verification, not exactly once per enrollment: in
particular a successful TOTP verification of an already-confirmed
credential changes no state yet still sends one email. -/
theorem c4_email_on_every_success (tv : Nat → String → Bool) (s : Store)
    (uid : Nat) (token : String) (now : Nat) (d : TOTPDevice)
    (hd : findDevice s uid = some d) (hconf : d.confirmed = true)
    (htotp : tv d.key token = true) :
    verify_view tv s uid token now = (ViewResult.ok, s, 1) := by
  unfold verify_view
  rw [verify_2fa_token_device_found tv s uid token now d hd, htotp, hconf]
  simp

/-- Witness for C4's amended theorem at the concrete ENABLED store. -/
theorem c4_witness :
    findDevice enabledStore 1 = some ⟨1, "default", true, 7⟩ ∧
    verify_view (fun _ _ => true) enabledStore 1 "111111" 9 =
      (ViewResult.ok, enabledStore, 1) :=
  ⟨by decide,
    c4_email_on_every_success (fun _ _ => true) enabledStore 1 "111111" 9
      ⟨1, "default", true, 7⟩ (by decide) rfl rfl⟩

/-- C6: enrolling twice in a row with no intervening verify returns
the same TOTP secret both times (the pending secret is not rotated),
while the second call replaces the backup-code batch: a code from the
first batch that does not reappear in the second batch no longer
validates after the second call. -/
theorem c6_enroll_twice_same_secret_fresh_codes (s : Store) (uid k1 k2 : Nat)
    (g1 g2 : Nat → String) (c : String) (now : Nat)
    (_hc : c ∈ (enable_2fa s uid k1 g1).1.2)
    (hup : upper c = c)
    (hfresh : ∀ i, i < 10 → upper (g2 i) ≠ c) :
    (enable_2fa (enable_2fa s uid k1 g1).2 uid k2 g2).1.1 =
      (enable_2fa s uid k1 g1).1.1 ∧
    verify_backup_code (enable_2fa (enable_2fa s uid k1 g1).2 uid k2 g2).2
        uid c now =
      (false, (enable_2fa (enable_2fa s uid k1 g1).2 uid k2 g2).2) := by
  obtain ⟨d2, hd2, hk2⟩ := findPendingDevice_enable s uid k1 g1
  constructor
  · rw [enable_2fa_pending (enable_2fa s uid k1 g1).2 uid k2 g2 d2 hd2]
    exact hk2
  · rw [enable_2fa_pending (enable_2fa s uid k1 g1).2 uid k2 g2 d2 hd2]
    have hr := consumeRead_generate_none (enable_2fa s uid k1 g1).2 uid 10 g2
      c hup hfresh
    unfold verify_backup_code
    rw [hr]

/-- Witness for C6 starting from the empty store: both enrolls return
key 5, and the first batch's code `B` is rejected once the second
enroll has replaced the batch with `D`-codes. -/
theorem c6_witness :
    "B" ∈ (enable_2fa ⟨[], [], []⟩ 1 5 (fun _ => "b")).1.2 ∧
    upper "B" = "B" ∧
    ((enable_2fa (enable_2fa ⟨[], [], []⟩ 1 5 (fun _ => "b")).2 1 6
        (fun _ => "d")).1.1 =
      (enable_2fa ⟨[], [], []⟩ 1 5 (fun _ => "b")).1.1 ∧
    verify_backup_code
        (enable_2fa (enable_2fa ⟨[], [], []⟩ 1 5 (fun _ => "b")).2 1 6
          (fun _ => "d")).2 1 "B" 0 =
      (false,
        (enable_2fa (enable_2fa ⟨[], [], []⟩ 1 5 (fun _ => "b")).2 1 6
          (fun _ => "d")).2)) :=
  ⟨by decide, by decide,
    c6_enroll_twice_same_secret_fresh_codes ⟨[], [], []⟩ 1 5 6
      (fun _ => "b") (fun _ => "d") "B" 0 (by decide) (by decide)
      (fun _ _ => (by decide : upper "d" ≠ "B"))⟩

/-- C8: `consume` accepts each code at most once: a call with no
matching unused code returns `False` and leaves the store unchanged,
and — the `code` column being unique — a second sequential consume of
the same code returns `False` with no state change, whatever the first
call did. -/
theorem c8_consume_at_most_once (s : Store) (uid : Nat) (c : String)
    (n1 n2 : Nat)
    (hnd : (s.codes.map (fun b => b.code)).Nodup) :
    (consumeRead s uid c = none → verify_backup_code s uid c n1 = (false, s)) ∧
    verify_backup_code (verify_backup_code s uid c n1).2 uid c n2 =
      (false, (verify_backup_code s uid c n1).2) := by
  constructor
  · intro h
    unfold verify_backup_code
    rw [h]
  · cases hr : consumeRead s uid c with
    | none =>
      have h1 : verify_backup_code s uid c n1 = (false, s) := by
        unfold verify_backup_code
        rw [hr]
      rw [h1]
      unfold verify_backup_code
      rw [hr]
    | some b =>
      have hpred := List.find?_some hr
      simp only [Bool.and_eq_true, beq_iff_eq] at hpred
      have h1 : verify_backup_code s uid c n1 =
          (true, consumeWrite s uid b.code n1) := by
        unfold verify_backup_code
        rw [hr]
      rw [h1]
      have hkill : consumeRead (consumeWrite s uid b.code n1) uid c = none := by
        unfold consumeRead consumeWrite
        rw [← hpred.1.2]
        exact writeUsed_kills uid b.code n1 s.codes hnd
      unfold verify_backup_code
      rw [hkill]

/-- Witness for C8 at the one-code store: the lone code `B2` is unique,
a non-matching submission mutates nothing, and the second consume of
`b2` fails. -/
theorem c8_witness :
    (oneCodeStore.codes.map (fun b => b.code)).Nodup ∧
    ((consumeRead oneCodeStore 1 "b2" = none →
        verify_backup_code oneCodeStore 1 "b2" 1 = (false, oneCodeStore)) ∧
      verify_backup_code (verify_backup_code oneCodeStore 1 "b2" 1).2 1 "b2" 2 =
        (false, (verify_backup_code oneCodeStore 1 "b2" 1).2)) :=
  ⟨by decide, c8_consume_at_most_once oneCodeStore 1 "b2" 1 2 (by decide)⟩

/-- C9: the row invariant "`used_at` is set iff `is_used`" is preserved
by every service operation (generation creates unused rows with null
`used_at`, consumption sets both fields together, disable deletes the
rows), and a code all of whose matching rows are marked used is never
accepted again: verification returns `False` with no state change. -/
theorem c9_used_at_iff_is_used (s : Store) (op : Op) (uid : Nat) (c : String)
    (now : Nat) (hinv : codesInvB s = true)
    (hused : ∀ b ∈ s.codes, b.userId = uid → b.code = upper c →
      b.is_used = true) :
    codesInvB (stepOp s op) = true ∧
    verify_backup_code s uid c now = (false, s) := by
  constructor
  · cases op with
    | enroll u k g => exact codesInvB_enable s u k g hinv
    | verify tv u tok n => exact codesInvB_verify tv s u tok n hinv
    | regen u n g => exact codesInvB_generate s u n g hinv
    | disable u => exact all_filter_of_all _ _ _ hinv
  · have hr : consumeRead s uid c = none := by
      apply List.find?_eq_none.mpr
      intro x hx hpx
      simp only [Bool.and_eq_true, beq_iff_eq] at hpx
      have hxused := hused x hx hpx.1.1 hpx.1.2
      have h2 := hpx.2
      rw [hxused] at h2
      exact absurd h2 (by decide)
    unfold verify_backup_code
    rw [hr]

/-- A store whose only backup code is already consumed. -/
def usedCodeStore : Store := ⟨[], [⟨2, "Z9", true, some 1⟩], []⟩

/-- Witness for C9: the consumed-code store satisfies the invariant,
still satisfies it after a disable, and rejects the used code. -/
theorem c9_witness :
    codesInvB usedCodeStore = true ∧
    (∀ b ∈ usedCodeStore.codes, b.userId = 2 → b.code = upper "z9" →
      b.is_used = true) ∧
    (codesInvB (stepOp usedCodeStore (Op.disable 2)) = true ∧
      verify_backup_code usedCodeStore 2 "z9" 0 = (false, usedCodeStore)) :=
  ⟨by decide, by decide,
    c9_used_at_iff_is_used usedCodeStore (Op.disable 2) 2 "z9" 0
      (by decide) (by decide)⟩

/-- Witness for C1's amended theorem at the concrete PENDING store. -/
theorem c1_witness :
    (verify_2fa_token (fun _ _ => false) pendStore 1 "a1" 5).1 = true ∧
    (verify_2fa_token (fun _ _ => false) pendStore 1 "a1" 5).2.devices =
      pendStore.devices ∧
    (verify_2fa_token (fun _ _ => false) pendStore 1 "a1" 5).2.flags =
      pendStore.flags :=
  c1_backup_success_leaves_pending (fun _ _ => false) pendStore 1 "a1" 5
    ⟨1, "default", false, 7⟩ (by decide) rfl (by decide)

end TwoFactor
